import Mathlib

/-!
Verification of the incident-retrieval pipeline (backend/src of the
Smart-System-Design repository) against its natural-language specification.

The Python sources are shallowly embedded: the chunk renderer and store
(`text_embedding.py`), the retriever (`retriever.py`) and the HTTP handlers
(`api.py`) become pure Lean functions; the external capabilities (embedding
provider, generation model, recursive text splitter, flat vector index) are
either function parameters or definitions modelled at their documented
boundary.  Mutable object state is threaded explicitly, and Python
exceptions become `Except` values.
-/

namespace SmartCity

/-- An incident record as loaded from the processed JSON: every field that
`TextProcessor.create_chunks` (text_embedding.py lines 60-103) reads is an
optional string.  `none` models an absent key (for the two calculated-hours
fields it also models an explicit JSON null, since the source treats the two
alike). -/
structure Record where
  sl_no : Option String := none
  incident_type : Option String := none
  location : Option String := none
  taluk : Option String := none
  received_date_time : Option String := none
  incident_reported_at : Option String := none
  action_taken_by : Option String := none
  action_date_time : Option String := none
  action_remarks : Option String := none
  time_taken_to_take_action : Option String := none
  closed_by_officer : Option String := none
  closed_at : Option String := none
  closed_remarks : Option String := none
  time_taken_to_close : Option String := none
  info_source : Option String := none
  info_phone : Option String := none
  action_time_hours : Option String := none
  resolution_time_hours : Option String := none
deriving DecidableEq

/-- The record with every field absent. -/
def emptyRecord : Record := {}

/-- A labelled line rendered only when the field is present
(the source pattern `if f in record:`). -/
def optEntry (label : String) (v : Option String) : List (String × String) :=
  match v with
  | some s => [(label, s)]
  | none => []

/-- A labelled line rendered only when the field is present and truthy, i.e.
a non-empty string (the source pattern `if f in record and record[f]:`). -/
def truthyEntry (label : String) (v : Option String) : List (String × String) :=
  match v with
  | some s => if s = "" then [] else [(label, s)]
  | none => []

/-- The (label, value) lines of the text block `create_chunks` builds for one
record (text_embedding.py lines 62-103), in source order.  The first four
lines use `record.get` with a default: the loop index for `sl_no`,
placeholder text for type, location and taluk.  All later lines are guarded
by presence (and for most, truthiness) of the field. -/
def renderEntries (i : Nat) (r : Record) : List (String × String) :=
  [("Incident ID", r.sl_no.getD (toString i)),
   ("Type", r.incident_type.getD "Unknown"),
   ("Location", r.location.getD "Unknown location"),
   ("Taluk", r.taluk.getD "Unknown")]
  ++ optEntry "Received Date/Time" r.received_date_time
  ++ optEntry "Incident Reported At" r.incident_reported_at
  ++ truthyEntry "Action Taken By" r.action_taken_by
  ++ truthyEntry "Action Date/Time" r.action_date_time
  ++ truthyEntry "Action Remarks" r.action_remarks
  ++ truthyEntry "Time Taken to Take Action" r.time_taken_to_take_action
  ++ truthyEntry "Closed By" r.closed_by_officer
  ++ truthyEntry "Closed At" r.closed_at
  ++ truthyEntry "Closed Remarks" r.closed_remarks
  ++ truthyEntry "Time Taken to Close" r.time_taken_to_close
  ++ truthyEntry "Information Source" r.info_source
  ++ truthyEntry "Information Phone" r.info_phone
  ++ optEntry "Action Time (hours)" r.action_time_hours
  ++ optEntry "Resolution Time (hours)" r.resolution_time_hours

/-- The rendered text block: each entry becomes one `Label: value` line
terminated by a newline, exactly as the source appends f-string lines. -/
def renderText (i : Nat) (r : Record) : String :=
  String.join ((renderEntries i r).map (fun e => e.1 ++ ": " ++ e.2 ++ "\n"))

/-- A metadata value of a chunk: the source puts the record index and the
whole record into the metadata dict (text_embedding.py line 106). -/
inductive MetaValue where
  | nat (n : Nat)
  | record (r : Record)
deriving DecidableEq

/-- The metadata dict literal attached to every chunk of record `i`:
exactly the two keys "source" and "record" (text_embedding.py line 106). -/
def chunkMetadata (i : Nat) (r : Record) : List (String × MetaValue) :=
  [("source", MetaValue.nat i), ("record", MetaValue.record r)]

/-- A stored chunk: page content plus the metadata dict
(text_embedding.py lines 109-113). -/
structure Chunk where
  text : String
  metadata : List (String × MetaValue)
deriving DecidableEq

/-- The chunk-building loop of `create_chunks` (text_embedding.py lines
60-116): for each record, render its text, split it with the text splitter
(an external capability, passed as the function `split`), and append one
chunk per split piece, all carrying that record's metadata dict. -/
def chunkRecords (split : String → List String) (data : List Record) : List Chunk :=
  data.enum.flatMap (fun p =>
    (split (renderText p.1 p.2)).map
      (fun t => { text := t, metadata := chunkMetadata p.1 p.2 }))

/-- The TextProcessor configuration state set by its constructor
(text_embedding.py lines 11-27); the constructor only stores the values. -/
structure TextProcessor where
  data_path : String
  chunk_size : Nat
  chunk_overlap : Nat
deriving DecidableEq

/-- `TextProcessor.__init__`: stores the configuration without any
validation of the chunk parameters. -/
def TextProcessor.init (data_path : String) (chunk_size : Nat := 1000)
    (chunk_overlap : Nat := 200) : TextProcessor :=
  { data_path := data_path, chunk_size := chunk_size, chunk_overlap := chunk_overlap }

/-- Embeds the parameter validation of the recursive character text splitter
that `create_chunks` constructs (text_embedding.py lines 52-56).  The
splitter is a third-party dependency not vendored under src/; its
constructor rejects a chunk overlap strictly larger than the chunk size
with a ValueError and accepts every other configuration (equality
included). -/
def splitterInit (chunk_size chunk_overlap : Nat) : Except String Unit :=
  if chunk_size < chunk_overlap then
    Except.error "Got a larger chunk overlap than chunk size, should be smaller."
  else Except.ok ()

/-- Modelled from the spec: a splitter constructor following the spec words
for the missing validation code — chunk_overlap < chunk_size is a
precondition and violating it fails with a ConfigurationError.  Stated for
comparison with `splitterInit`, the embedding of the dependency the source
actually calls. -/
def specSplitterInit (chunk_size chunk_overlap : Nat) : Except String Unit :=
  if chunk_size ≤ chunk_overlap then Except.error "ConfigurationError"
  else Except.ok ()

/-- `TextProcessor.create_chunks` (text_embedding.py lines 42-116):
constructs the splitter (whose constructor validates the chunk parameters)
and then runs the chunk-building loop over the loaded records. -/
def create_chunks (split : String → List String) (p : TextProcessor)
    (data : List Record) : Except String (List Chunk) :=
  match splitterInit p.chunk_size p.chunk_overlap with
  | Except.error e => Except.error e
  | Except.ok _ => Except.ok (chunkRecords split data)

/-- A vector as stored in the flat index.  Components are modelled as exact
integers: the claims about the index are order-theoretic (smallest squared
Euclidean distances, tie-breaks), so exact arithmetic stands in for the
float components of the real vectors. -/
abbrev Vec := List Int

/-- Squared Euclidean distance between two vectors of the same dimension
(the metric of the flat L2 index built at text_embedding.py line 165). -/
def sqDist (u v : Vec) : Int :=
  ((u.zip v).map (fun p => (p.1 - p.2) * (p.1 - p.2))).sum

/-- All (id, distance) pairs of a query against the indexed vectors, ids
being insertion positions 0..n-1. -/
def distPairs (xs : List Vec) (q : Vec) : List (Nat × Int) :=
  xs.enum.map (fun p => (p.1, sqDist q p.2))

/-- The search order on (id, distance) pairs: ascending distance, ties
broken by smaller id. -/
def pairRel (a b : Nat × Int) : Prop :=
  a.2 < b.2 ∨ (a.2 = b.2 ∧ a.1 ≤ b.1)

instance : DecidableRel pairRel := fun a b =>
  inferInstanceAs (Decidable (a.2 < b.2 ∨ (a.2 = b.2 ∧ a.1 ≤ b.1)))

instance : IsTrans (Nat × Int) pairRel where
  trans a b c hab hbc := by
    rcases hab with h1 | ⟨h1, h2⟩ <;> rcases hbc with h3 | ⟨h3, h4⟩ <;>
      simp only [pairRel] <;> omega

instance : IsTotal (Nat × Int) pairRel where
  total a b := by
    simp only [pairRel]
    omega

/-- Modelled from the spec: the flat-index `search` of the vector-index
library (the library itself is not under src/; §4.3 of the spec gives its
contract at the boundary) — return the k ids with smallest squared
Euclidean distance to the query, ascending, ties broken by smaller id. -/
def searchIndex (xs : List Vec) (q : Vec) (k : Nat) : List (Nat × Int) :=
  ((distPairs xs q).insertionSort pairRel).take k

/-- Modelled from the spec: the library search fails with an InvalidArgument
error for `k ≤ 0` (§4.3); for positive k it performs `searchIndex`. -/
def faissSearch (xs : List Vec) (q : Vec) (k : Int) : Except String (List (Nat × Int)) :=
  if k ≤ 0 then Except.error "InvalidArgument: k must be positive"
  else Except.ok (searchIndex xs q k.toNat)

/-- `TextProcessor.generate_embeddings` (text_embedding.py lines 134-151):
embeds the chunk texts in store order.  The external embedding provider is
the parameter `embed`; its batch mode maps it over the texts (§4.2). -/
def generate_embeddings (embed : String → Vec) (chunks : List Chunk) : List Vec :=
  (chunks.map (fun c => c.text)).map embed

/-- `TextProcessor.create_faiss_index` (text_embedding.py lines 153-169):
one single ordered `add` of all embeddings into a fresh flat index, which
therefore holds the vectors at positional ids 0..n-1; the index state is
that ordered list (§3 Vector Index). -/
def create_faiss_index (embeddings : List Vec) : List Vec := embeddings

/-- The mutable fields of an `IncidentRetriever` instance
(retriever.py lines 12-25).  The loaded generation capability `llm`
remembers the model name it was constructed with (`Ollama(model=...)`);
the embedding model is opaque, so its loaded state is a unit. -/
structure RetrieverState where
  model_name : String
  chunks : Option (List Chunk)
  index : Option (List Vec)
  embedding_model : Option Unit
  llm : Option String
deriving DecidableEq

/-- `IncidentRetriever.__init__`: stores the model name, all resources
unloaded. -/
def initRetriever (model_name : String) : RetrieverState :=
  { model_name := model_name, chunks := none, index := none,
    embedding_model := none, llm := none }

/-- The persisted vector store on disk: `none` models missing or corrupt
files (reading them raises), `some` holds the chunk list and index vectors
that `load_resources` would read. -/
abbrev Disk := Option (List Chunk × List Vec)

/-- `IncidentRetriever.load_resources` (retriever.py lines 27-56): reads
chunks and index from disk, initializes the embedding model and the
generation capability for the current `model_name`.  Any file error
raises (becomes `Except.error`), leaving the instance unchanged. -/
def load_resources (disk : Disk) (r : RetrieverState) : Except String RetrieverState :=
  match disk with
  | none => Except.error "ResourceLoadError: missing or corrupt vector store files"
  | some d =>
    Except.ok { r with chunks := some d.1
                       index := some d.2
                       embedding_model := some ()
                       llm := some r.model_name }

/-- Python list indexing `chunks[idx]`: raises IndexError out of range. -/
def listGet (cs : List Chunk) (i : Nat) : Except String Chunk :=
  match cs[i]? with
  | some c => Except.ok c
  | none => Except.error "IndexError: list index out of range"

/-- The loaded part of `retrieve_relevant_chunks`: embed the query, search
the index with `k` clamped by `min(k, len(self.chunks))` (retriever.py lines
72-79), and map each returned id through the chunk list (line 82). -/
def retrieve_core (embed : String → Vec) (cs : List Chunk) (ix : List Vec)
    (query : String) (k : Int) : Except String (List Chunk) := do
  let res ← faissSearch ix (embed query) (min k (cs.length : Int))
  res.mapM (fun p => listGet cs p.1)

/-- `IncidentRetriever.retrieve_relevant_chunks` (retriever.py lines 58-84):
lazily loads resources if any of index/chunks/embedding model is missing,
then runs the search over the loaded chunks and index.  The state is
returned alongside so that in-place mutations survive a raised exception,
as they do on the Python object. -/
def retrieve_relevant_chunks (embed : String → Vec) (disk : Disk)
    (r : RetrieverState) (query : String) (k : Int) :
    Except String (List Chunk) × RetrieverState :=
  match (if r.index.isNone || r.chunks.isNone || r.embedding_model.isNone
         then load_resources disk r else Except.ok r) with
  | Except.error e => (Except.error e, r)
  | Except.ok r1 =>
    match r1.chunks, r1.index with
    | some cs, some ix => (retrieve_core embed cs ix query k, r1)
    | _, _ => (Except.error "TypeError: resources not loaded", r1)

/-- The filled prompt template of `generate_answer` (retriever.py lines
104-130), with the retrieved context and the user question substituted. -/
def generate_prompt (context query : String) : String :=
  "You are an AI assistant for the Mangalore Smart City Incident Management System.\n"
  ++ "INCIDENT DATA:\n" ++ context ++ "\nUSER QUESTION: " ++ query ++ "\nANSWER:"

/-- `IncidentRetriever.generate_answer` (retriever.py lines 86-138): lazily
reloads all resources when the generation capability is missing, joins the
retrieved chunk texts with blank lines into the context, fills the prompt
and invokes the generation capability `gen` (external; called with the
loaded model name and the prompt). -/
def generate_answer (gen : String → String → Except String String) (disk : Disk)
    (r : RetrieverState) (query : String) (relevant : List Chunk) :
    Except String String × RetrieverState :=
  match (if r.llm.isNone then load_resources disk r else Except.ok r) with
  | Except.error e => (Except.error e, r)
  | Except.ok r1 =>
    match r1.llm with
    | some m =>
      (gen m (generate_prompt
        (String.intercalate "\n\n" (relevant.map (fun c => c.text))) query), r1)
    | none => (Except.error "TypeError: llm not initialized", r1)

/-- The response dict built by `process_query` (retriever.py lines 158-163).
`processing_time_ms`, added by the handler from the wall clock, is real
time and not modelled. -/
structure QueryResponse where
  query : String
  answer : String
  relevant_chunks : List Chunk
  num_chunks_retrieved : Nat
deriving DecidableEq

/-- `IncidentRetriever.process_query` (retriever.py lines 140-165):
retrieve, then generate, then assemble the response. -/
def process_query (embed : String → Vec) (gen : String → String → Except String String)
    (disk : Disk) (r : RetrieverState) (query : String) (k : Int) :
    Except String QueryResponse × RetrieverState :=
  match retrieve_relevant_chunks embed disk r query k with
  | (Except.error e, r1) => (Except.error e, r1)
  | (Except.ok relevant, r1) =>
    match generate_answer gen disk r1 query relevant with
    | (Except.error e, r2) => (Except.error e, r2)
    | (Except.ok ans, r2) =>
      (Except.ok { query := query, answer := ans, relevant_chunks := relevant,
                   num_chunks_retrieved := relevant.length }, r2)

/-- The request body of the query endpoint (api.py lines 34-37). -/
structure QueryRequest where
  query : String
  num_chunks : Int := 5
  model : String := "mistral"
deriving DecidableEq

/-- An HTTP outcome of the query endpoint: a success body or an
HTTPException with a status code and detail. -/
inductive HandlerResult where
  | success (resp : QueryResponse)
  | httpError (status : Nat) (detail : String)
deriving DecidableEq

/-- Whether an outcome is a client-error (4xx, InvalidArgument-class)
response. -/
def isClientError : HandlerResult → Bool
  | HandlerResult.httpError s _ => decide (400 ≤ s ∧ s < 500)
  | _ => false

/-- The `/query` handler (api.py lines 73-99): 503 when the global
retriever is unset; otherwise, if the requested model differs from the
retriever's current one, mutate the shared retriever (set `model_name`,
null out `llm`) before processing; run `process_query` and map any raised
exception to a 500 response.  The possibly mutated retriever is returned
as the new global state. -/
def queryHandler (embed : String → Vec) (gen : String → String → Except String String)
    (disk : Disk) (app : Option RetrieverState) (req : QueryRequest) :
    HandlerResult × Option RetrieverState :=
  match app with
  | none => (HandlerResult.httpError 503 "Retriever not initialized", none)
  | some st =>
    match process_query embed gen disk
        (if req.model ≠ st.model_name
         then { st with model_name := req.model, llm := none } else st)
        req.query req.num_chunks with
    | (Except.ok resp, st2) => (HandlerResult.success resp, some st2)
    | (Except.error e, st2) =>
      (HandlerResult.httpError 500 ("Error processing query: " ++ e), some st2)

/-- The startup hook (api.py lines 46-56): construct the retriever (the
constructor cannot fail), assign it to the global, then try to load
resources; any exception is caught and only printed, leaving the global
set to the constructed-but-unloaded instance. -/
def startup_event (disk : Disk) : Option RetrieverState :=
  let r0 := initRetriever "mistral"
  match load_resources disk r0 with
  | Except.ok r1 => some r1
  | Except.error _ => some r0

/-- Outcome of the `/health` endpoint. -/
inductive HealthResult where
  | healthy
  | unavailable (status : Nat) (detail : String)
deriving DecidableEq

/-- The `/health` handler (api.py lines 66-71): 503 only when the global
retriever is unset, otherwise reports healthy — it inspects no loaded
state. -/
def health_check (app : Option RetrieverState) : HealthResult :=
  match app with
  | none => HealthResult.unavailable 503 "Retriever not initialized"
  | some _ => HealthResult.healthy

/-! ### Concrete fixtures used by witnesses and counterexamples -/

/-- A stored chunk of a toy corpus. -/
def chunkA : Chunk := { text := "flood at Kulai", metadata := chunkMetadata 0 emptyRecord }

/-- A second stored chunk of the toy corpus. -/
def chunkB : Chunk := { text := "tree fall at Bejai", metadata := chunkMetadata 1 emptyRecord }

/-- A toy deterministic embedding provider: the text length as the first
component of a two-dimensional vector. -/
def embedLen : String → Vec := fun s => [Int.ofNat s.length, 0]

/-- A retriever instance whose resources are all loaded, indexing the toy
corpus in store order. -/
def loadedState : RetrieverState :=
  { model_name := "mistral", chunks := some [chunkA, chunkB],
    index := some [embedLen chunkA.text, embedLen chunkB.text],
    embedding_model := some (), llm := some "mistral" }

/-- A generation capability that always answers. -/
def genOk : String → String → Except String String := fun _ _ => Except.ok "answer"

/-! ### C9 — chunk-parameter validation -/

/-- C9, counterexample: the claim says every configuration with
chunk_overlap ≥ chunk_size fails with a ConfigurationError, but at
chunk_overlap = chunk_size = 1000 the TextProcessor constructor stores the
parameters without complaint and create_chunks succeeds — only the
spec-faithful validator would reject this configuration. -/
theorem c9_equal_overlap_accepted :
    TextProcessor.init "data.json" 1000 1000 =
      { data_path := "data.json", chunk_size := 1000, chunk_overlap := 1000 } ∧
    create_chunks (fun s => [s]) (TextProcessor.init "data.json" 1000 1000) [emptyRecord] =
      Except.ok (chunkRecords (fun s => [s]) [emptyRecord]) ∧
    specSplitterInit 1000 1000 = Except.error "ConfigurationError" :=
  ⟨rfl, rfl, rfl⟩

/-- C9, amended: the repository itself never validates the chunk parameters
(the TextProcessor constructor stores anything); validation happens only in
the splitter constructed inside create_chunks, which rejects exactly the
configurations with chunk_overlap strictly greater than chunk_size, so a
configuration with chunk_overlap = chunk_size is accepted, and every
configuration with chunk_overlap ≤ chunk_size chunks without error. -/
theorem c9_overlap_validation (split : String → List String) (dp : String)
    (cs co : Nat) (data : List Record) :
    (TextProcessor.init dp cs co).chunk_size = cs ∧
    (TextProcessor.init dp cs co).chunk_overlap = co ∧
    (cs < co → create_chunks split (TextProcessor.init dp cs co) data =
      Except.error "Got a larger chunk overlap than chunk size, should be smaller.") ∧
    (co ≤ cs → create_chunks split (TextProcessor.init dp cs co) data =
      Except.ok (chunkRecords split data)) := by
  refine ⟨rfl, rfl, ?_, ?_⟩
  · intro h
    simp [create_chunks, splitterInit, TextProcessor.init, if_pos h]
  · intro h
    simp [create_chunks, splitterInit, TextProcessor.init, if_neg (Nat.not_lt.mpr h)]

/-- C9, witness for the amended theorem at a concrete configuration. -/
theorem c9_overlap_validation_witness :
    (TextProcessor.init "d" 1000 1200).chunk_size = 1000 ∧
    (TextProcessor.init "d" 1000 1200).chunk_overlap = 1200 ∧
    (1000 < 1200 → create_chunks (fun s => [s]) (TextProcessor.init "d" 1000 1200) [] =
      Except.error "Got a larger chunk overlap than chunk size, should be smaller.") ∧
    (1200 ≤ 1000 → create_chunks (fun s => [s]) (TextProcessor.init "d" 1000 1200) [] =
      Except.ok (chunkRecords (fun s => [s]) [])) :=
  c9_overlap_validation (fun s => [s]) "d" 1000 1200 []

/-! ### C8 — health endpoint vs. loaded resources -/

/-- C8, counterexample: when loading fails during startup (missing files,
modelled by an empty disk), the exception is caught and only printed, the
global retriever stays assigned to the constructed-but-unloaded instance,
and the health check reports healthy — not the service-unavailable the
claim requires after a failed load. -/
theorem c8_health_after_failed_load :
    startup_event none = some (initRetriever "mistral") ∧
    (initRetriever "mistral").chunks = none ∧
    (initRetriever "mistral").index = none ∧
    (initRetriever "mistral").llm = none ∧
    health_check (startup_event none) = HealthResult.healthy :=
  ⟨rfl, rfl, rfl, rfl, rfl⟩

/-- C8, amended: the health endpoint only tests whether the global retriever
object is set, not whether its resources loaded.  Before startup it reports
503; after startup it always reports healthy, because the constructor cannot
fail and a load_resources failure is swallowed, leaving the global set to
the unloaded instance. -/
theorem c8_health_reports_global_presence (disk : Disk) :
    health_check none = HealthResult.unavailable 503 "Retriever not initialized" ∧
    health_check (startup_event disk) = HealthResult.healthy ∧
    (disk = none → startup_event disk = some (initRetriever "mistral")) := by
  refine ⟨rfl, ?_, ?_⟩
  · cases disk <;> rfl
  · intro h
    subst h
    rfl

/-- C8, witness for the amended theorem at the failing-load disk. -/
theorem c8_health_reports_global_presence_witness :
    health_check none = HealthResult.unavailable 503 "Retriever not initialized" ∧
    health_check (startup_event none) = HealthResult.healthy ∧
    ((none : Disk) = none → startup_event none = some (initRetriever "mistral")) :=
  c8_health_reports_global_presence none

/-! ### C5 — rendering of present and absent fields -/

/-- Membership in a presence-guarded line. -/
theorem mem_optEntry {L v label : String} {x : Option String} :
    (L, v) ∈ optEntry label x ↔ L = label ∧ x = some v := by
  cases x with
  | none => simp [optEntry]
  | some s =>
    simp only [optEntry, List.mem_singleton, Prod.mk.injEq, Option.some.injEq]
    aesop

/-- Membership in a presence-and-truthiness-guarded line. -/
theorem mem_truthyEntry {L v label : String} {x : Option String} :
    (L, v) ∈ truthyEntry label x ↔ L = label ∧ x = some v ∧ v ≠ "" := by
  cases x with
  | none => simp [truthyEntry]
  | some s =>
    by_cases h : s = "" <;> simp [truthyEntry, h] <;> aesop

/-- C5, counterexample: for the record with every field absent, the renderer
still emits the type, location and taluk lines, with exactly the placeholder
texts the claim forbids. -/
theorem c5_placeholder_rendered :
    emptyRecord.incident_type = none ∧
    emptyRecord.location = none ∧
    emptyRecord.taluk = none ∧
    ("Type", "Unknown") ∈ renderEntries 0 emptyRecord ∧
    ("Location", "Unknown location") ∈ renderEntries 0 emptyRecord ∧
    ("Taluk", "Unknown") ∈ renderEntries 0 emptyRecord := by
  refine ⟨rfl, rfl, rfl, ?_, ?_, ?_⟩ <;> simp [renderEntries, emptyRecord]

/-- C5, amended: the four header fields (incident id, type, location, taluk)
are always rendered, substituting the loop index resp. the placeholders
"Unknown" and "Unknown location" when absent; every other field is rendered
exactly when it is present (date and calculated fields) or present and
non-empty (action, closing and source fields), and is skipped entirely
otherwise. -/
theorem c5_render_contract (i : Nat) (r : Record) :
    ("Incident ID", r.sl_no.getD (toString i)) ∈ renderEntries i r ∧
    ("Type", r.incident_type.getD "Unknown") ∈ renderEntries i r ∧
    ("Location", r.location.getD "Unknown location") ∈ renderEntries i r ∧
    ("Taluk", r.taluk.getD "Unknown") ∈ renderEntries i r ∧
    (∀ v, ("Received Date/Time", v) ∈ renderEntries i r ↔
      r.received_date_time = some v) ∧
    (∀ v, ("Incident Reported At", v) ∈ renderEntries i r ↔
      r.incident_reported_at = some v) ∧
    (∀ v, ("Action Taken By", v) ∈ renderEntries i r ↔
      r.action_taken_by = some v ∧ v ≠ "") ∧
    (∀ v, ("Action Date/Time", v) ∈ renderEntries i r ↔
      r.action_date_time = some v ∧ v ≠ "") ∧
    (∀ v, ("Action Remarks", v) ∈ renderEntries i r ↔
      r.action_remarks = some v ∧ v ≠ "") ∧
    (∀ v, ("Time Taken to Take Action", v) ∈ renderEntries i r ↔
      r.time_taken_to_take_action = some v ∧ v ≠ "") ∧
    (∀ v, ("Closed By", v) ∈ renderEntries i r ↔
      r.closed_by_officer = some v ∧ v ≠ "") ∧
    (∀ v, ("Closed At", v) ∈ renderEntries i r ↔
      r.closed_at = some v ∧ v ≠ "") ∧
    (∀ v, ("Closed Remarks", v) ∈ renderEntries i r ↔
      r.closed_remarks = some v ∧ v ≠ "") ∧
    (∀ v, ("Time Taken to Close", v) ∈ renderEntries i r ↔
      r.time_taken_to_close = some v ∧ v ≠ "") ∧
    (∀ v, ("Information Source", v) ∈ renderEntries i r ↔
      r.info_source = some v ∧ v ≠ "") ∧
    (∀ v, ("Information Phone", v) ∈ renderEntries i r ↔
      r.info_phone = some v ∧ v ≠ "") ∧
    (∀ v, ("Action Time (hours)", v) ∈ renderEntries i r ↔
      r.action_time_hours = some v) ∧
    (∀ v, ("Resolution Time (hours)", v) ∈ renderEntries i r ↔
      r.resolution_time_hours = some v) := by
  refine ⟨?_, ?_, ?_, ?_, ?_, ?_, ?_, ?_, ?_, ?_, ?_, ?_, ?_, ?_, ?_, ?_, ?_, ?_⟩ <;>
    simp [renderEntries, mem_optEntry, mem_truthyEntry]

/-! ### C6 — chunk metadata contents -/

/-- C6, counterexample: the single chunk built from a one-record corpus
carries exactly the metadata keys "source" and "record" — there is no
sequence_index key, contrary to the claim. -/
theorem c6_no_sequence_index :
    (chunkRecords (fun s => [s]) [emptyRecord]).map (fun c => c.metadata.map Prod.fst) =
      [["source", "record"]] ∧
    "sequence_index" ∉
      (chunkRecords (fun s => [s]) [emptyRecord]).flatMap (fun c => c.metadata.map Prod.fst) := by
  refine ⟨rfl, ?_⟩
  decide

/-- C6, amended: every chunk produced by the chunking loop carries its text
piece together with metadata holding exactly two keys — "source", the
integer position of its source record, and "record", the record itself;
its text is one of the splitter's pieces for that record's rendered text.
No per-record sequence index is stored.  The loop is a pure function of the
records and splitting parameters, so re-runs produce identical chunks. -/
theorem c6_chunk_metadata (split : String → List String) (data : List Record)
    (c : Chunk) (hc : c ∈ chunkRecords split data) :
    ∃ i, ∃ h : i < data.length,
      c.metadata = chunkMetadata i (data.get ⟨i, h⟩) ∧
      c.text ∈ split (renderText i (data.get ⟨i, h⟩)) ∧
      c.metadata.map Prod.fst = ["source", "record"] ∧
      "sequence_index" ∉ c.metadata.map Prod.fst := by
  unfold chunkRecords at hc
  rw [List.mem_flatMap] at hc
  obtain ⟨p, hp, hcm⟩ := hc
  rw [List.mem_map] at hcm
  obtain ⟨t, ht, rfl⟩ := hcm
  have hg : data[p.1]? = some p.2 := by
    have := List.mk_mem_enum_iff_getElem? (i := p.1) (x := p.2) (l := data)
    exact this.mp (by simpa using hp)
  rw [List.getElem?_eq_some_iff] at hg
  obtain ⟨h, hval⟩ := hg
  refine ⟨p.1, h, ?_, ?_, rfl, by simp [chunkMetadata]⟩
  · simp [List.get_eq_getElem, hval]
  · simpa [List.get_eq_getElem, hval] using ht

/-- C6, witness for the amended theorem: the concrete chunk built from the
one-record corpus. -/
theorem c6_chunk_metadata_witness :
    ∃ i, ∃ h : i < ([emptyRecord] : List Record).length,
      (Chunk.mk (renderText 0 emptyRecord) (chunkMetadata 0 emptyRecord)).metadata =
        chunkMetadata i (([emptyRecord] : List Record).get ⟨i, h⟩) ∧
      (Chunk.mk (renderText 0 emptyRecord) (chunkMetadata 0 emptyRecord)).text ∈
        (fun s => [s]) (renderText i (([emptyRecord] : List Record).get ⟨i, h⟩)) ∧
      (Chunk.mk (renderText 0 emptyRecord) (chunkMetadata 0 emptyRecord)).metadata.map Prod.fst =
        ["source", "record"] ∧
      "sequence_index" ∉
        (Chunk.mk (renderText 0 emptyRecord) (chunkMetadata 0 emptyRecord)).metadata.map Prod.fst :=
  c6_chunk_metadata (fun s => [s]) [emptyRecord]
    (Chunk.mk (renderText 0 emptyRecord) (chunkMetadata 0 emptyRecord))
    (by simp [chunkRecords, List.enum])

/-! ### State-threading lemmas for the retriever -/

/-- A successful `load_resources` keeps the model name and loads the
generation capability for exactly that model name. -/
theorem load_resources_state (disk : Disk) (r r1 : RetrieverState)
    (h : load_resources disk r = Except.ok r1) :
    r1.model_name = r.model_name ∧ r1.llm = some r.model_name := by
  cases disk with
  | none => simp [load_resources] at h
  | some d =>
    simp only [load_resources, Except.ok.injEq] at h
    subst h
    exact ⟨rfl, rfl⟩

/-- The lazy-load guard either keeps the state or loads it; in both cases
the model name is preserved and the llm is unchanged or freshly loaded for
the current model name. -/
theorem loadOrKeep_state (b : Bool) (disk : Disk) (r r1 : RetrieverState)
    (h : (if b then load_resources disk r else Except.ok r) = Except.ok r1) :
    r1.model_name = r.model_name ∧ (r1.llm = r.llm ∨ r1.llm = some r.model_name) := by
  cases b with
  | false =>
    simp only [Bool.false_eq_true, if_false, Except.ok.injEq] at h
    subst h
    exact ⟨rfl, Or.inl rfl⟩
  | true =>
    simp only [if_true] at h
    obtain ⟨h1, h2⟩ := load_resources_state disk r r1 h
    exact ⟨h1, Or.inr h2⟩

/-- `retrieve_relevant_chunks` preserves the model name; the llm is either
untouched or lazily loaded for the current model name. -/
theorem retrieve_relevant_chunks_state (embed : String → Vec) (disk : Disk)
    (r : RetrieverState) (query : String) (k : Int) :
    (retrieve_relevant_chunks embed disk r query k).2.model_name = r.model_name ∧
    ((retrieve_relevant_chunks embed disk r query k).2.llm = r.llm ∨
      (retrieve_relevant_chunks embed disk r query k).2.llm = some r.model_name) := by
  unfold retrieve_relevant_chunks
  split
  · exact ⟨rfl, Or.inl rfl⟩
  · rename_i r1 heq
    obtain ⟨h1, h2⟩ := loadOrKeep_state _ disk r r1 heq
    split <;> exact ⟨h1, h2⟩

/-- `generate_answer` preserves the model name; the llm is either untouched
or lazily loaded for the current model name. -/
theorem generate_answer_state (gen : String → String → Except String String)
    (disk : Disk) (r : RetrieverState) (query : String) (relevant : List Chunk) :
    (generate_answer gen disk r query relevant).2.model_name = r.model_name ∧
    ((generate_answer gen disk r query relevant).2.llm = r.llm ∨
      (generate_answer gen disk r query relevant).2.llm = some r.model_name) := by
  unfold generate_answer
  split
  · exact ⟨rfl, Or.inl rfl⟩
  · rename_i r1 heq
    obtain ⟨h1, h2⟩ := loadOrKeep_state _ disk r r1 heq
    split <;> exact ⟨h1, h2⟩

/-- Chaining two load-or-keep effects preserves the combined llm fact. -/
theorem llm_chain {r r1 r2 : RetrieverState}
    (hA1 : r1.model_name = r.model_name)
    (hA2 : r1.llm = r.llm ∨ r1.llm = some r.model_name)
    (hB2 : r2.llm = r1.llm ∨ r2.llm = some r1.model_name) :
    r2.llm = r.llm ∨ r2.llm = some r.model_name := by
  rcases hB2 with h | h
  · rcases hA2 with h2 | h2
    · exact Or.inl (h.trans h2)
    · exact Or.inr (h.trans h2)
  · rw [hA1] at h
    exact Or.inr h

/-- `process_query` preserves the model name; the llm is either untouched
or loaded for the current model name, whether or not an exception is
raised. -/
theorem process_query_state (embed : String → Vec)
    (gen : String → String → Except String String) (disk : Disk)
    (r : RetrieverState) (query : String) (k : Int) :
    (process_query embed gen disk r query k).2.model_name = r.model_name ∧
    ((process_query embed gen disk r query k).2.llm = r.llm ∨
      (process_query embed gen disk r query k).2.llm = some r.model_name) := by
  unfold process_query
  rcases hr : retrieve_relevant_chunks embed disk r query k with ⟨res1, r1⟩
  have hA := retrieve_relevant_chunks_state embed disk r query k
  rw [hr] at hA
  obtain ⟨hA1, hA2⟩ := hA
  cases res1 with
  | error e => exact ⟨hA1, hA2⟩
  | ok relevant =>
    rcases hg : generate_answer gen disk r1 query relevant with ⟨res2, r2⟩
    have hB := generate_answer_state gen disk r1 query relevant
    rw [hg] at hB
    obtain ⟨hB1, hB2⟩ := hB
    dsimp only
    rw [hg]
    cases res2 with
    | error e => exact ⟨hB1.trans hA1, llm_chain hA1 hA2 hB2⟩
    | ok ans => exact ⟨hB1.trans hA1, llm_chain hA1 hA2 hB2⟩

/-! ### C10 — model-switch mutation persists across failures -/

/-- C10: when the requested model differs from the retriever's current one,
the handler mutates the shared retriever before processing — it sets
model_name to the requested model and clears the loaded generation
capability — and this mutation persists in the global state whatever
`process_query` does: afterwards the llm is either still cleared or lazily
reloaded for the new model, even when the request fails. -/
theorem c10_model_switch_persists (embed : String → Vec)
    (gen : String → String → Except String String) (disk : Disk)
    (st : RetrieverState) (req : QueryRequest) (hne : req.model ≠ st.model_name) :
    ∃ st2, (queryHandler embed gen disk (some st) req).2 = some st2 ∧
      st2.model_name = req.model ∧
      (st2.llm = none ∨ st2.llm = some req.model) := by
  unfold queryHandler
  dsimp only
  rw [if_pos hne]
  rcases hp : process_query embed gen disk
      { st with model_name := req.model, llm := none } req.query req.num_chunks
    with ⟨res, st2⟩
  have h := process_query_state embed gen disk
    { st with model_name := req.model, llm := none } req.query req.num_chunks
  rw [hp] at h
  obtain ⟨h1, h2⟩ := h
  cases res with
  | ok resp => exact ⟨st2, rfl, h1, h2⟩
  | error e => exact ⟨st2, rfl, h1, h2⟩

/-- C10, witness: switching from "mistral" to "llama2" on the loaded
retriever while generation fails still leaves the global retriever on
"llama2". -/
theorem c10_model_switch_persists_witness :
    ∃ st2, (queryHandler embedLen (fun _ _ => Except.error "GenerationError") none
        (some loadedState) { query := "q", num_chunks := 1, model := "llama2" }).2 = some st2 ∧
      st2.model_name = "llama2" ∧
      (st2.llm = none ∨ st2.llm = some "llama2") :=
  c10_model_switch_persists embedLen (fun _ _ => Except.error "GenerationError") none
    loadedState { query := "q", num_chunks := 1, model := "llama2" } (by decide)

/-! ### C3 — non-positive k -/

/-- With all resources loaded, `retrieve_relevant_chunks` skips the lazy
load and runs the search core over the loaded chunks and index. -/
theorem retrieve_loaded (embed : String → Vec) (disk : Disk)
    (st : RetrieverState) (cs : List Chunk) (ix : List Vec)
    (hcs : st.chunks = some cs) (hix : st.index = some ix)
    (hem : st.embedding_model = some ()) (query : String) (k : Int) :
    retrieve_relevant_chunks embed disk st query k =
      (retrieve_core embed cs ix query k, st) := by
  unfold retrieve_relevant_chunks
  simp [hcs, hix, hem]

/-- For `k ≤ 0` the clamped neighbor count is still non-positive and the
search fails with the InvalidArgument error before touching the chunks. -/
theorem retrieve_core_nonpositive (embed : String → Vec) (cs : List Chunk)
    (ix : List Vec) (query : String) (k : Int) (hk : k ≤ 0) :
    retrieve_core embed cs ix query k =
      Except.error "InvalidArgument: k must be positive" := by
  unfold retrieve_core faissSearch
  rw [if_pos (le_trans (min_le_left _ _) hk)]
  rfl

/-- `process_query` with loaded resources and non-positive k raises the
InvalidArgument error and leaves the state unchanged. -/
theorem process_query_nonpositive (embed : String → Vec)
    (gen : String → String → Except String String) (disk : Disk)
    (st : RetrieverState) (cs : List Chunk) (ix : List Vec)
    (hcs : st.chunks = some cs) (hix : st.index = some ix)
    (hem : st.embedding_model = some ()) (query : String) (k : Int) (hk : k ≤ 0) :
    process_query embed gen disk st query k =
      (Except.error "InvalidArgument: k must be positive", st) := by
  unfold process_query
  rw [retrieve_loaded embed disk st cs ix hcs hix hem query k,
    retrieve_core_nonpositive embed cs ix query k hk]

/-- C3, amended: a query request with `num_chunks ≤ 0` on a loaded retriever
does fail — the library search refuses the non-positive k — but the API
surfaces it as a generic 500 server-error response wrapping the message,
not as an InvalidArgument-class (4xx) client response; the process neither
crashes nor returns an empty 200. -/
theorem c3_nonpositive_k_500 (embed : String → Vec)
    (gen : String → String → Except String String) (disk : Disk)
    (st : RetrieverState) (req : QueryRequest) (cs : List Chunk) (ix : List Vec)
    (hcs : st.chunks = some cs) (hix : st.index = some ix)
    (hem : st.embedding_model = some ()) (hk : req.num_chunks ≤ 0) :
    (queryHandler embed gen disk (some st) req).1 =
      HandlerResult.httpError 500
        "Error processing query: InvalidArgument: k must be positive" ∧
    isClientError (queryHandler embed gen disk (some st) req).1 = false := by
  unfold queryHandler
  dsimp only
  by_cases hm : req.model ≠ st.model_name
  · rw [if_pos hm,
      process_query_nonpositive embed gen disk
        { st with model_name := req.model, llm := none } cs ix hcs hix hem
        req.query req.num_chunks hk]
    exact ⟨rfl, rfl⟩
  · rw [if_neg hm,
      process_query_nonpositive embed gen disk st cs ix hcs hix hem req.query req.num_chunks hk]
    exact ⟨rfl, rfl⟩

/-- C3, witness for the amended theorem on the loaded toy retriever with
`num_chunks = 0`. -/
theorem c3_nonpositive_k_500_witness :
    (queryHandler embedLen genOk none (some loadedState)
        { query := "flood", num_chunks := 0, model := "mistral" }).1 =
      HandlerResult.httpError 500
        "Error processing query: InvalidArgument: k must be positive" ∧
    isClientError (queryHandler embedLen genOk none (some loadedState)
        { query := "flood", num_chunks := 0, model := "mistral" }).1 = false :=
  c3_nonpositive_k_500 embedLen genOk none loadedState
    { query := "flood", num_chunks := 0, model := "mistral" }
    [chunkA, chunkB] [embedLen chunkA.text, embedLen chunkB.text]
    rfl rfl rfl (by decide)

/-- C3, counterexample to the claim as stated: the concrete `num_chunks = 0`
request is answered with a 500 server error, which is not an
InvalidArgument-class (4xx) response. -/
theorem c3_counterexample :
    (queryHandler embedLen genOk none (some loadedState)
        { query := "flood", num_chunks := -3, model := "mistral" }).1 =
      HandlerResult.httpError 500
        "Error processing query: InvalidArgument: k must be positive" ∧
    isClientError (queryHandler embedLen genOk none (some loadedState)
        { query := "flood", num_chunks := -3, model := "mistral" }).1 = false := by
  exact ⟨rfl, rfl⟩

/-! ### Search lemmas shared by the index claims -/

/-- One distance pair per indexed vector. -/
theorem distPairs_length (xs : List Vec) (q : Vec) :
    (distPairs xs q).length = xs.length := by
  simp [distPairs]

/-- The search returns `min k n` results. -/
theorem searchIndex_length (xs : List Vec) (q : Vec) (k : Nat) :
    (searchIndex xs q k).length = min k xs.length := by
  unfold searchIndex
  rw [List.length_take, (List.perm_insertionSort pairRel (distPairs xs q)).length_eq,
    distPairs_length]

/-- Every search result is one of the query's distance pairs. -/
theorem searchIndex_subset (xs : List Vec) (q : Vec) (k : Nat) {p : Nat × Int}
    (hp : p ∈ searchIndex xs q k) : p ∈ distPairs xs q :=
  (List.perm_insertionSort pairRel (distPairs xs q)).subset (List.take_subset _ _ hp)

/-- A distance pair is a valid id together with the squared distance of the
query to the vector stored at that id. -/
theorem mem_distPairs {xs : List Vec} {q : Vec} {p : Nat × Int}
    (hp : p ∈ distPairs xs q) :
    ∃ v, xs[p.1]? = some v ∧ p.2 = sqDist q v := by
  unfold distPairs at hp
  rw [List.mem_map] at hp
  obtain ⟨a, ha, hEq⟩ := hp
  rcases a with ⟨i, v⟩
  cases hEq
  exact ⟨v, List.mk_mem_enum_iff_getElem?.mp ha, rfl⟩

/-- Search result ids are in range. -/
theorem searchIndex_id_lt (xs : List Vec) (q : Vec) (k : Nat) {p : Nat × Int}
    (hp : p ∈ searchIndex xs q k) : p.1 < xs.length := by
  obtain ⟨v, hv, _⟩ := mem_distPairs (searchIndex_subset xs q k hp)
  exact (List.getElem?_eq_some_iff.mp hv).1

/-- Looking every in-range search id up in the chunk list succeeds and
returns one chunk per search result. -/
theorem mapM_listGet_ok (cs : List Chunk) :
    ∀ res : List (Nat × Int), (∀ p ∈ res, p.1 < cs.length) →
      ∃ out : List Chunk, res.mapM (fun p => listGet cs p.1) = Except.ok out ∧
        out.length = res.length := by
  intro res
  induction res with
  | nil => exact fun _ => ⟨[], rfl, rfl⟩
  | cons p rest ih =>
    intro h
    have hp : p.1 < cs.length := h p (List.mem_cons_self p rest)
    obtain ⟨out, hout, hlen⟩ := ih (fun q hq => h q (List.mem_cons_of_mem p hq))
    have hc : listGet cs p.1 = Except.ok (cs[p.1]) := by
      unfold listGet
      rw [List.getElem?_eq_getElem hp]
    refine ⟨cs[p.1] :: out, ?_, by simp [hlen]⟩
    rw [List.mapM_cons, hc, hout]
    rfl

/-! ### C4 — k larger than the corpus is clamped -/

/-- C4: on a loaded retriever whose index holds one vector per stored chunk,
a request for more neighbors than stored chunks succeeds and returns exactly
corpus-size results — k is clamped to the store size, no error is raised. -/
theorem c4_k_clamped_to_corpus (embed : String → Vec) (disk : Disk)
    (st : RetrieverState) (cs : List Chunk) (ix : List Vec) (query : String) (k : Int)
    (hcs : st.chunks = some cs) (hix : st.index = some ix)
    (hem : st.embedding_model = some ())
    (hlen : ix.length = cs.length) (hne : cs ≠ []) (hk : (cs.length : Int) < k) :
    ∃ out : List Chunk,
      retrieve_relevant_chunks embed disk st query k = (Except.ok out, st) ∧
      out.length = cs.length := by
  have hmin : min k (cs.length : Int) = (cs.length : Int) := min_eq_right (le_of_lt hk)
  have hpos : ¬ ((cs.length : Int) ≤ 0) := by
    simp only [not_le]
    exact_mod_cast List.length_pos.mpr hne
  have hsearch : faissSearch ix (embed query) (min k (cs.length : Int)) =
      Except.ok (searchIndex ix (embed query) cs.length) := by
    unfold faissSearch
    rw [hmin, if_neg hpos, Int.toNat_natCast]
  have hids : ∀ p ∈ searchIndex ix (embed query) cs.length, p.1 < cs.length := by
    intro p hp
    have := searchIndex_id_lt ix (embed query) cs.length hp
    omega
  obtain ⟨out, hout, houtlen⟩ := mapM_listGet_ok cs _ hids
  refine ⟨out, ?_, ?_⟩
  · rw [retrieve_loaded embed disk st cs ix hcs hix hem query k]
    unfold retrieve_core
    rw [hsearch]
    simpa using hout
  · rw [houtlen, searchIndex_length, hlen, Nat.min_self]

/-- C4, witness: requesting five neighbors from the two-chunk toy corpus
returns exactly the two stored chunks. -/
theorem c4_k_clamped_to_corpus_witness :
    ∃ out : List Chunk,
      retrieve_relevant_chunks embedLen none loadedState "flood" 5 =
        (Except.ok out, loadedState) ∧
      out.length = ([chunkA, chunkB] : List Chunk).length :=
  c4_k_clamped_to_corpus embedLen none loadedState [chunkA, chunkB]
    [embedLen chunkA.text, embedLen chunkB.text] "flood" 5
    rfl rfl rfl rfl (by decide) (by decide)

/-! ### C7 — empty query handling -/

/-- C7, counterexample: a request whose query string is empty is not
rejected by the handler — the empty string is embedded, the index is
searched, generation runs, and a success response with the retrieved
chunks is returned, where the claim requires a client-error rejection
before any retrieval work. -/
theorem c7_counterexample :
    (queryHandler embedLen genOk none (some loadedState)
        { query := "", num_chunks := 5, model := "mistral" }).1 =
      HandlerResult.success
        { query := "", answer := "answer",
          relevant_chunks := [chunkA, chunkB], num_chunks_retrieved := 2 } ∧
    isClientError (queryHandler embedLen genOk none (some loadedState)
        { query := "", num_chunks := 5, model := "mistral" }).1 = false :=
  ⟨rfl, rfl⟩

/-- C7, amended: the query endpoint performs no emptiness check — a request
with an empty query string is processed like any other (only a missing
field would be rejected by schema validation, outside this code).  On a
set retriever the outcome is either a success response or, when processing
raises, a 500 server error; never an InvalidArgument-class client
rejection. -/
theorem c7_empty_query_not_rejected (embed : String → Vec)
    (gen : String → String → Except String String) (disk : Disk)
    (st : RetrieverState) (req : QueryRequest) (_hq : req.query = "") :
    ((∃ resp, (queryHandler embed gen disk (some st) req).1 =
        HandlerResult.success resp) ∨
     (∃ d, (queryHandler embed gen disk (some st) req).1 =
        HandlerResult.httpError 500 d)) ∧
    isClientError (queryHandler embed gen disk (some st) req).1 = false := by
  unfold queryHandler
  dsimp only
  rcases hp : process_query embed gen disk
      (if req.model ≠ st.model_name
       then { st with model_name := req.model, llm := none } else st)
      req.query req.num_chunks with ⟨res, st2⟩
  cases res with
  | ok resp => exact ⟨Or.inl ⟨resp, rfl⟩, rfl⟩
  | error e => exact ⟨Or.inr ⟨"Error processing query: " ++ e, rfl⟩, rfl⟩

/-- C7, witness for the amended theorem on the concrete empty-query
request. -/
theorem c7_empty_query_not_rejected_witness :
    ((∃ resp, (queryHandler embedLen genOk none (some loadedState)
        { query := "", num_chunks := 5, model := "mistral" }).1 =
        HandlerResult.success resp) ∨
     (∃ d, (queryHandler embedLen genOk none (some loadedState)
        { query := "", num_chunks := 5, model := "mistral" }).1 =
        HandlerResult.httpError 500 d)) ∧
    isClientError (queryHandler embedLen genOk none (some loadedState)
        { query := "", num_chunks := 5, model := "mistral" }).1 = false :=
  c7_empty_query_not_rejected embedLen genOk none loadedState
    { query := "", num_chunks := 5, model := "mistral" } rfl

/-! ### C1 — positional coupling of chunk store and index -/

/-- C1: building embeddings and the index in one ordered pass makes the flat
index hold, at every position i, exactly the embedding of the chunk stored
at position i (same length, same order); consequently every id returned by
a search is a valid store position, and its reported squared distance is
computed against exactly the embedding of the chunk at that position. -/
theorem c1_positional_invariant (embed : String → Vec) (chunks : List Chunk)
    (i : Nat) (q : Vec) (k : Nat) (p : Nat × Int)
    (hp : p ∈ searchIndex (create_faiss_index (generate_embeddings embed chunks)) q k) :
    (create_faiss_index (generate_embeddings embed chunks)).length = chunks.length ∧
    (create_faiss_index (generate_embeddings embed chunks))[i]? =
      (chunks[i]?).map (fun c => embed c.text) ∧
    ∃ c, chunks[p.1]? = some c ∧ p.2 = sqDist q (embed c.text) := by
  refine ⟨by simp [create_faiss_index, generate_embeddings], ?_, ?_⟩
  · simp only [create_faiss_index, generate_embeddings, List.getElem?_map, Option.map_map]
    rfl
  · obtain ⟨v, hv, hd⟩ := mem_distPairs (searchIndex_subset _ q k hp)
    unfold create_faiss_index generate_embeddings at hv
    simp only [List.getElem?_map, Option.map_map] at hv
    obtain ⟨c, hc, hcv⟩ := Option.map_eq_some'.mp hv
    refine ⟨c, hc, ?_⟩
    rw [hd, ← hcv]
    rfl

/-- C1, witness on the two-chunk toy corpus: the nearest id 0 returned for
the zero query addresses chunkA, whose embedded vector produced the
reported distance. -/
theorem c1_positional_invariant_witness :
    (create_faiss_index (generate_embeddings embedLen [chunkA, chunkB])).length =
      ([chunkA, chunkB] : List Chunk).length ∧
    (create_faiss_index (generate_embeddings embedLen [chunkA, chunkB]))[1]? =
      (([chunkA, chunkB] : List Chunk)[1]?).map (fun c => embedLen c.text) ∧
    ∃ c, ([chunkA, chunkB] : List Chunk)[(((0 : Nat), (196 : Int))).1]? = some c ∧
      (((0 : Nat), (196 : Int))).2 = sqDist [0, 0] (embedLen c.text) :=
  c1_positional_invariant embedLen [chunkA, chunkB] 1 [0, 0] 2 (0, 196) (by decide)

/-! ### C2 — flat search semantics -/

/-- The ids of the distance pairs are exactly the insertion positions. -/
theorem distPairs_map_fst (xs : List Vec) (q : Vec) :
    (distPairs xs q).map Prod.fst = List.range xs.length := by
  unfold distPairs
  rw [List.map_map]
  have hcomp : (Prod.fst ∘ fun p : Nat × Vec => (p.1, sqDist q p.2)) = Prod.fst := rfl
  rw [hcomp, List.enum_eq_enumFrom, List.enumFrom_map_fst, ← List.range_eq_range']

/-- C2: for every query and k ≥ 1, the search returns min k n results; the
full pair list splits, up to permutation, into the returned results and a
remainder every element of which is (distance, id)-lexicographically no
smaller than every returned result; the results are in ascending distance
order with exact distance ties ordered by strictly smaller id; and for
k = 1 the single returned distance is minimal over all indexed vectors. -/
theorem c2_search_semantics (xs : List Vec) (q : Vec) (k : Nat) (hk : 1 ≤ k) :
    (searchIndex xs q k).length = min k xs.length ∧
    List.Pairwise (fun a b : Nat × Int => a.2 < b.2 ∨ (a.2 = b.2 ∧ a.1 < b.1))
      (searchIndex xs q k) ∧
    (∃ rest, (distPairs xs q).Perm (searchIndex xs q k ++ rest) ∧
      ∀ a ∈ searchIndex xs q k, ∀ b ∈ rest, pairRel a b) ∧
    (k = 1 → ∀ p ∈ searchIndex xs q k, ∀ b ∈ distPairs xs q, p.2 ≤ b.2) := by
  have perm := List.perm_insertionSort pairRel (distPairs xs q)
  have sorted : List.Pairwise pairRel ((distPairs xs q).insertionSort pairRel) :=
    List.sorted_insertionSort pairRel (distPairs xs q)
  have hids : (((distPairs xs q).insertionSort pairRel).map Prod.fst).Nodup :=
    (perm.map Prod.fst).nodup_iff.mpr
      (by rw [distPairs_map_fst]; exact List.nodup_range xs.length)
  have hne : List.Pairwise (fun a b : Nat × Int => a.1 ≠ b.1)
      ((distPairs xs q).insertionSort pairRel) := List.pairwise_map.mp hids
  unfold searchIndex
  refine ⟨?_, ?_, ?_, ?_⟩
  · rw [List.length_take, perm.length_eq, distPairs_length]
  · have pw1 : List.Pairwise pairRel
        (((distPairs xs q).insertionSort pairRel).take k) :=
      List.Pairwise.sublist (List.take_sublist k _) sorted
    have pw2 : List.Pairwise (fun a b : Nat × Int => a.1 ≠ b.1)
        (((distPairs xs q).insertionSort pairRel).take k) :=
      List.Pairwise.sublist (List.take_sublist k _) hne
    refine List.Pairwise.imp ?_ (pw1.and pw2)
    rintro a b ⟨hr, hne2⟩
    rcases hr with h | ⟨h1, h2⟩
    · exact Or.inl h
    · exact Or.inr ⟨h1, lt_of_le_of_ne h2 hne2⟩
  · refine ⟨((distPairs xs q).insertionSort pairRel).drop k, ?_, ?_⟩
    · rw [List.take_append_drop]
      exact perm.symm
    · have hsplit := sorted
      rw [← List.take_append_drop k ((distPairs xs q).insertionSort pairRel)] at hsplit
      exact (List.pairwise_append.mp hsplit).2.2
  · intro hk1 p hp b hb
    subst hk1
    have hbs : b ∈ (distPairs xs q).insertionSort pairRel := perm.mem_iff.mpr hb
    rcases hsort : (distPairs xs q).insertionSort pairRel with _ | ⟨hd, tl⟩
    · rw [hsort] at hp
      simp at hp
    · rw [hsort] at hp hbs sorted
      have hph : p = hd := by simpa using hp
      subst hph
      rcases List.mem_cons.mp hbs with hbh | hbt
      · exact le_of_eq (by rw [hbh])
      · rcases (List.pairwise_cons.mp sorted).1 b hbt with h | ⟨h1, h2⟩
        · exact le_of_lt h
        · exact le_of_eq h1

/-- C2, witness on the toy two-vector index with the zero query and
k = 1. -/
theorem c2_search_semantics_witness :
    (searchIndex [embedLen chunkA.text, embedLen chunkB.text] [0, 0] 1).length =
      min 1 ([embedLen chunkA.text, embedLen chunkB.text] : List Vec).length ∧
    List.Pairwise (fun a b : Nat × Int => a.2 < b.2 ∨ (a.2 = b.2 ∧ a.1 < b.1))
      (searchIndex [embedLen chunkA.text, embedLen chunkB.text] [0, 0] 1) ∧
    (∃ rest, (distPairs [embedLen chunkA.text, embedLen chunkB.text] [0, 0]).Perm
        (searchIndex [embedLen chunkA.text, embedLen chunkB.text] [0, 0] 1 ++ rest) ∧
      ∀ a ∈ searchIndex [embedLen chunkA.text, embedLen chunkB.text] [0, 0] 1,
        ∀ b ∈ rest, pairRel a b) ∧
    ((1 : Nat) = 1 → ∀ p ∈ searchIndex [embedLen chunkA.text, embedLen chunkB.text] [0, 0] 1,
      ∀ b ∈ distPairs [embedLen chunkA.text, embedLen chunkB.text] [0, 0], p.2 ≤ b.2) :=
  c2_search_semantics [embedLen chunkA.text, embedLen chunkB.text] [0, 0] 1 (by decide)

end SmartCity
